import Mathlib

/-
Verification of the PPTX-to-Markdown extraction script
(`scripts/extract_pptx_text.py`) against its natural-language
specification.  The Python functions are shallowly embedded as pure Lean
functions; filesystem state (the media export directory) is modelled as an
association list from file name to file bytes.
-/

set_option autoImplicit false

namespace Pptx

/-! ## Character and string helpers (Python string primitives) -/

/-- ASCII whitespace as recognised by Python's `str.strip` and `re` `\s`. -/
def isPyWs (c : Char) : Bool :=
  c == ' ' || c == '\t' || c == '\n' || c == '\r' || c == '\x0b' || c == '\x0c'

/-- Python `str.strip()`: drop leading and trailing whitespace. -/
def pyStrip (s : String) : String :=
  String.mk (((s.data.dropWhile isPyWs).reverse.dropWhile isPyWs).reverse)

/-- State machine for `re.sub(r"\s+", "_", s)`: each maximal whitespace run
becomes a single underscore.  The flag records whether the previous character
was whitespace. -/
def collapseWsGo : Bool → List Char → List Char
  | _, [] => []
  | inWs, c :: rest =>
    if isPyWs c then
      if inWs then collapseWsGo true rest
      else '_' :: collapseWsGo true rest
    else c :: collapseWsGo false rest

/-- `re.sub(r"\s+", "_", s)` on the character list of `s`. -/
def collapseWs (l : List Char) : List Char := collapseWsGo false l

/-- The character class kept by `re.sub(r"[^A-Za-z0-9_\-]", "", s)`. -/
def isStemChar (c : Char) : Bool :=
  c.isAlpha || c.isDigit || c == '_' || c == '-'

/-- Embedding of `sanitize_stem`: collapse whitespace runs to underscores,
delete every character outside `[A-Za-z0-9_-]`, and fall back to `"slides"`
when nothing remains (`return s or "slides"`). -/
def sanitize_stem (stem : String) : String :=
  let s2 := (collapseWs stem.data).filter isStemChar
  if s2 = [] then "slides" else String.mk s2

/-- Python `a or b` on strings: `b` when `a` is empty (falsy), else `a`. -/
def pyOr (a b : String) : String := if a = "" then b else a

/-- Python `s * n` for strings: `n` concatenated copies of `s`. -/
def strRepeat (s : String) : Nat → String
  | 0 => ""
  | n + 1 => s ++ strRepeat s n

/-- Python `sep.join(parts)`. -/
def joinSep (sep : String) : List String → String
  | [] => ""
  | [x] => x
  | x :: y :: ys => x ++ sep ++ joinSep sep (y :: ys)

/-- Boolean check that `pat` is a leading segment of `l`. -/
def isPrefixChars : List Char → List Char → Bool
  | [], _ => true
  | _ :: _, [] => false
  | a :: as, b :: bs => a == b && isPrefixChars as bs

/-- Boolean substring search on character lists. -/
def hasSubstrChars (pat : List Char) : List Char → Bool
  | [] => isPrefixChars pat []
  | c :: rest => isPrefixChars pat (c :: rest) || hasSubstrChars pat rest

/-- Python `pat in s` substring containment. -/
def hasSubstr (s pat : String) : Bool := hasSubstrChars pat.data s.data

/-! ## Data model

The python-pptx objects the script touches, reduced to the attributes the
script actually reads.  A `Shape` keeps the picture alt-text and shape name
attributes python-pptx exposes even though this script never reads them, so
that properties about their (non-)influence can be stated. -/

/-- The shape kinds distinguished by `shape_summary` via `MSO_SHAPE_TYPE`;
`other` stands for every remaining shape type. -/
inductive ShapeType where
  | picture
  | table
  | chart
  | group
  | other
  deriving DecidableEq

/-- One paragraph of a text frame: nesting level, the text of its runs, and
the paragraph's own `text` attribute. -/
structure Paragraph where
  level : Nat
  runs : List String
  text : String

/-- A text frame: an ordered list of paragraphs. -/
structure TextFrame where
  paragraphs : List Paragraph

/-- A shape: its `shape_type`, its text frame when `has_text_frame`, and the
alt-text / name attributes (absent or present). -/
structure Shape where
  shapeType : ShapeType
  textFrame : Option TextFrame
  altText : Option String
  name : Option String

/-- A slide: its shapes and the notes text of its notes slide (`none` when
accessing the notes slide raises). -/
structure Slide where
  shapes : List Shape
  notes : Option String

/-- A presentation: its ordered slides. -/
structure Presentation where
  slides : List Slide

/-- One file stored under `ppt/media/` in the package: archive file name and
raw bytes. -/
structure MediaEntry where
  name : String
  content : List Nat

/-- The opened PPTX package, reduced to its `ppt/media/` directory listing in
iteration order (empty when the folder is absent). -/
structure Package where
  media : List MediaEntry

/-- The media export directory on disk: file name to file bytes, in creation
order. -/
abbrev ExportDir := List (String × List Nat)

/-- First-match lookup of a file in the export directory. -/
def lookupFile : ExportDir → String → Option (List Nat)
  | [], _ => none
  | (n, c) :: rest, q => if n = q then some c else lookupFile rest q

/-- `if not target.exists(): shutil.copy2(m, target)` — write the media entry
only when no file of that name exists yet. -/
def writeIfAbsent (fs : ExportDir) (m : MediaEntry) : ExportDir :=
  match lookupFile fs m.name with
  | some _ => fs
  | none => fs ++ [(m.name, m.content)]

/-- The `for m in media_root.iterdir()` loop of `collect_media`: copy each
entry unless present, and append its name to `exported`. -/
def collectMediaGo : ExportDir → List String → List MediaEntry → ExportDir × List String
  | fs, ex, [] => (fs, ex)
  | fs, ex, m :: ms => collectMediaGo (writeIfAbsent fs m) (ex ++ [m.name]) ms

/-- Embedding of `collect_media(prs, pptx_path, out_dir, slide_index)`: the
package stands for the unzipped archive at `pptx_path`, `fs` for the state of
the export directory.  The function copies the whole `ppt/media` pool and
returns the new directory state and the list of exported names; the `prs` and
`slideIndex` parameters appear in the signature but are never used, exactly as
in the source. -/
def collectMedia (prs : Presentation) (pkg : Package) (fs : ExportDir)
    (slideIndex : Nat) : ExportDir × List String :=
  collectMediaGo fs [] pkg.media

/-! ## Shape classification and text extraction -/

/-- `"".join(run.text for run in para.runs) or para.text or ""`. -/
def paraEffText (p : Paragraph) : String :=
  pyOr (String.join p.runs) (pyOr p.text "")

/-- Embedding of `iter_shape_text`: for a shape with a text frame, yield
`(level, text.strip())` for each paragraph whose effective text is truthy and
truthy after stripping. -/
def iter_shape_text (shape : Shape) : List (Nat × String) :=
  match shape.textFrame with
  | none => []
  | some tf =>
    tf.paragraphs.filterMap fun p =>
      let text := paraEffText p
      if text ≠ "" ∧ pyStrip text ≠ "" then some (p.level, pyStrip text) else none

/-- The `for shape in slide.shapes: yield from iter_shape_text(shape)` loop. -/
def iterShapeLoopGo : List Shape → List (Nat × String)
  | [] => []
  | sh :: rest => iter_shape_text sh ++ iterShapeLoopGo rest

/-- Embedding of `iter_shape_text_loop`. -/
def iter_shape_text_loop (slide : Slide) : List (Nat × String) :=
  iterShapeLoopGo slide.shapes

/-- Embedding of `slide_notes`: empty string when the notes slide is missing
or the stripped notes text is falsy, else the stripped notes text. -/
def slide_notes (slide : Slide) : String :=
  match slide.notes with
  | none => ""
  | some n => if n ≠ "" ∧ pyStrip n ≠ "" then pyStrip n else ""

/-- The `counts` dictionary of `shape_summary`, in insertion order. -/
structure ShapeCounts where
  picture : Nat
  table : Nat
  chart : Nat
  group : Nat
  other : Nat
  deriving DecidableEq

/-- One iteration of the counting loop in `shape_summary`: shapes with a text
frame are kept out of the `other` bucket. -/
def countShape (c : ShapeCounts) (sh : Shape) : ShapeCounts :=
  match sh.shapeType with
  | .picture => ⟨c.picture + 1, c.table, c.chart, c.group, c.other⟩
  | .table => ⟨c.picture, c.table + 1, c.chart, c.group, c.other⟩
  | .chart => ⟨c.picture, c.table, c.chart + 1, c.group, c.other⟩
  | .group => ⟨c.picture, c.table, c.chart, c.group + 1, c.other⟩
  | .other =>
    if sh.textFrame.isSome then c
    else ⟨c.picture, c.table, c.chart, c.group, c.other + 1⟩

/-- The counting loop of `shape_summary` over the slide's shapes. -/
def shapeCountsGo : ShapeCounts → List Shape → ShapeCounts
  | c, [] => c
  | c, sh :: rest => shapeCountsGo (countShape c sh) rest

/-- Counts of non-text shapes on a slide, as computed by `shape_summary`. -/
def shapeCounts (shapes : List Shape) : ShapeCounts :=
  shapeCountsGo ⟨0, 0, 0, 0, 0⟩ shapes

/-- The `parts` list of `shape_summary`: one `"kind:count"` entry per nonzero
count, in dictionary insertion order. -/
def countParts (c : ShapeCounts) : List String :=
  (if c.picture ≠ 0 then ["picture:" ++ toString c.picture] else []) ++
  (if c.table ≠ 0 then ["table:" ++ toString c.table] else []) ++
  (if c.chart ≠ 0 then ["chart:" ++ toString c.chart] else []) ++
  (if c.group ≠ 0 then ["group:" ++ toString c.group] else []) ++
  (if c.other ≠ 0 then ["other:" ++ toString c.other] else [])

/-- The sentence returned by `shape_summary` when every count is zero. -/
def noShapeText : String := "tidak ada shape non-teks"

/-- Embedding of `shape_summary`. -/
def shape_summary (slide : Slide) : String :=
  let parts := countParts (shapeCounts slide.shapes)
  if parts = [] then noShapeText else joinSep ", " parts

/-! ## Markdown assembly (`extract_one`) -/

/-- One rendered bullet: `f"{indent}- {text}"` with
`indent = "  " * min(level, 4)`. -/
def bulletLine (lv : Nat) (t : String) : String :=
  strRepeat "  " (min lv 4) ++ "- " ++ t

/-- The placeholder emitted when a slide yields no text. -/
def placeholderLine : String := "_(tidak ada teks terdeteksi di slide ini)_"

/-- The advisory recommendation sentence. -/
def advisoryLine : String :=
  "_Rekomendasi: Tambahkan alt text / catatan untuk gambar di slide ini._"

/-- The label of the shape-summary line. -/
def summaryLabel : String := "**Ringkasan shape non-teks:** "

/-- The lines appended for slide number `i` by one iteration of the slide loop
in `extract_one`: heading, text bullets or placeholder, notes block, summary
line, advisory line, trailing blank. -/
def slideSection (i : Nat) (slide : Slide) : List String :=
  let textLines := (iter_shape_text_loop slide).map fun p => bulletLine p.1 p.2
  let body := if iter_shape_text_loop slide = [] then [placeholderLine] else textLines
  let notes := slide_notes slide
  let notesBlock := if notes = "" then [] else ["", "**Catatan (Notes):**", "> " ++ notes]
  let summary := shape_summary slide
  let recBlock :=
    if hasSubstr summary "picture:" = true ∧ iter_shape_text_loop slide = [] ∧ notes = ""
    then ["", advisoryLine] else []
  ("## Slide " ++ toString i) :: body ++ notesBlock ++
    ["", summaryLabel ++ summary] ++ recBlock ++ [""]

/-- The `for i, slide in enumerate(prs.slides, start=1)` loop. -/
def slideSections : Nat → List Slide → List String
  | _, [] => []
  | i, s :: rest => slideSection i s ++ slideSections (i + 1) rest

/-- Embedding of `extract_one`: returns the output file name
(`f"{stem}.md"`), the Markdown text written to it, and the export-directory
state after `collect_media`. -/
def extract_one (pptxName stem0 : String) (prs : Presentation) (pkg : Package)
    (fs : ExportDir) : String × String × ExportDir :=
  let c := collectMedia prs pkg fs 0
  let header := ["# " ++ pptxName, "",
    "**Total media diekstrak (semua slide)**: " ++ toString c.2.length, ""]
  let md := joinSep "\n" (header ++ slideSections 1 prs.slides)
  (sanitize_stem stem0 ++ ".md", md, c.1)

/-! ## Batch driver (`main`) -/

/-- One input file discovered by `rglob`: its path components, file name,
stem, and the result of opening it (`none` when `Presentation(...)` raises). -/
structure InputFile where
  parts : List String
  fileName : String
  stem : String
  opened : Option (Presentation × Package)

/-- The diagnostic carried by the exception of a failed package open. -/
def openErrMsg (f : InputFile) : String := "package-open failure: " ++ f.fileName

/-- `extract_one` at the driver level: opening the package either raises
(modelled as `Except.error`) or yields the written document and the new
export-directory state. -/
def extractOneE (f : InputFile) (fs : ExportDir) :
    Except String ((String × String) × ExportDir) :=
  match f.opened with
  | none => .error (openErrMsg f)
  | some (prs, pkg) =>
    let r := extract_one f.fileName f.stem prs pkg fs
    .ok ((r.1, r.2.1), r.2.2)

/-- The `for f in pptx_files` loop of `main`: skip files under `docs`,
process the rest in order; an uncaught exception ends the loop.  Returns the
documents written before any failure, the final export-directory state, and
the propagated error if one occurred. -/
def runBatch (fs : ExportDir) :
    List InputFile → List (String × String) × ExportDir × Option String
  | [] => ([], fs, none)
  | f :: rest =>
    if "docs" ∈ f.parts then runBatch fs rest
    else
      match extractOneE f fs with
      | .error e => ([], fs, some e)
      | .ok (out, fs1) =>
        let r := runBatch fs1 rest
        (out :: r.1, r.2.1, r.2.2)

/-! ## Specification-side definitions

These follow the wording of the specification (not the source); they exist
only to be compared with the source embeddings above. -/

/-- The character set the specification allows in a sanitized stem: letters,
digits, underscore, hyphen, dot. -/
def specAllowedChar (c : Char) : Bool :=
  c.isAlpha || c.isDigit || c == '_' || c == '-' || c == '.'

/-- Modelled from the spec claim wording: paragraph text is the concatenation
of its runs, falling back to the paragraph's own text only when no runs are
present; paragraphs empty after trimming yield nothing. -/
def iterShapeTextClaim (shape : Shape) : List (Nat × String) :=
  match shape.textFrame with
  | none => []
  | some tf =>
    tf.paragraphs.filterMap fun p =>
      let text := if p.runs = [] then p.text else String.join p.runs
      if pyStrip text = "" then none else some (p.level, pyStrip text)

/-- The amended reading: paragraph text is the concatenation of its runs,
falling back to the paragraph's own text whenever that concatenation is empty
(in particular when there are no runs). -/
def iterShapeTextAmended (shape : Shape) : List (Nat × String) :=
  match shape.textFrame with
  | none => []
  | some tf =>
    tf.paragraphs.filterMap fun p =>
      let joined := String.join p.runs
      let text := if joined = "" then p.text else joined
      if pyStrip text = "" then none else some (p.level, pyStrip text)

/-- A copy of a shape with alt-text and name erased. -/
def eraseAltShape (sh : Shape) : Shape :=
  ⟨sh.shapeType, sh.textFrame, none, none⟩

/-- A copy of a slide with every shape's alt-text and name erased. -/
def eraseAltSlide (slide : Slide) : Slide :=
  ⟨slide.shapes.map eraseAltShape, slide.notes⟩

end Pptx

namespace Pptx

/-! ## Helper lemmas -/

theorem mk_ne_empty {l : List Char} (h : l ≠ []) : String.mk l ≠ "" := by
  intro he
  exact h (by simpa using congrArg String.data he)

theorem stemChar_allowed {c : Char} (h : isStemChar c = true) : specAllowedChar c = true := by
  simp only [isStemChar, Bool.or_eq_true] at h
  simp only [specAllowedChar, Bool.or_eq_true]
  tauto

theorem strRepeat_length (s : String) : ∀ n, (strRepeat s n).length = n * s.length
  | 0 => by simp [strRepeat]
  | n + 1 => by
    rw [strRepeat, String.length_append, strRepeat_length s n]
    ring

theorem pyStrip_empty : pyStrip "" = "" := rfl

theorem ifPart_nil (n : Nat) (s : String) : ((if n ≠ 0 then [s] else []) = []) ↔ n = 0 := by
  by_cases h : n = 0 <;> simp [h]

theorem mem_ifPart {n : Nat} {s e : String} (h : s ∈ (if n ≠ 0 then [e] else [])) : s = e := by
  by_cases hn : n ≠ 0
  · rw [if_pos hn] at h; simpa using h
  · rw [if_neg hn] at h; simp at h

theorem countParts_eq_nil_iff (c : ShapeCounts) :
    countParts c = [] ↔
      c.picture = 0 ∧ c.table = 0 ∧ c.chart = 0 ∧ c.group = 0 ∧ c.other = 0 := by
  unfold countParts
  simp only [List.append_eq_nil, ifPart_nil]
  tauto

theorem countParts_colon {c : ShapeCounts} {s : String} (h : s ∈ countParts c) :
    ':' ∈ s.data := by
  unfold countParts at h
  simp only [List.mem_append] at h
  rcases h with ((((h | h) | h) | h) | h) <;>
    rw [mem_ifPart h, String.data_append] <;>
    exact List.mem_append_left _ (by decide)

theorem joinSep_cons_data (sep x : String) (xs : List String) :
    ∃ r, (joinSep sep (x :: xs)).data = x.data ++ r := by
  cases xs with
  | nil => exact ⟨[], by simp [joinSep]⟩
  | cons y ys =>
    refine ⟨sep.data ++ (joinSep sep (y :: ys)).data, ?_⟩
    show ((x ++ sep) ++ joinSep sep (y :: ys)).data = _
    rw [String.data_append, String.data_append, List.append_assoc]

theorem colon_mem_joinSep {x : String} (xs : List String) (h : ':' ∈ x.data) :
    ':' ∈ (joinSep ", " (x :: xs)).data := by
  obtain ⟨r, hr⟩ := joinSep_cons_data ", " x xs
  rw [hr]
  exact List.mem_append_left _ h

theorem shape_summary_noShape_iff (slide : Slide) :
    shape_summary slide = noShapeText ↔ countParts (shapeCounts slide.shapes) = [] := by
  unfold shape_summary
  by_cases h : countParts (shapeCounts slide.shapes) = []
  · simp [h]
  · rw [if_neg h]
    simp only [h, iff_false]
    obtain ⟨p, ps, hps⟩ := List.exists_cons_of_ne_nil h
    rw [hps]
    intro he
    have hc : ':' ∈ p.data := countParts_colon (hps ▸ List.mem_cons_self p ps)
    have hm := colon_mem_joinSep ps hc
    rw [he] at hm
    exact absurd hm (by decide)

theorem isPrefixChars_append : ∀ (p q : List Char), isPrefixChars p (p ++ q) = true
  | [], _ => rfl
  | a :: as, q => by simp [isPrefixChars, isPrefixChars_append as q]

theorem hasSubstrChars_of_prefixCheck {p l : List Char} (h : isPrefixChars p l = true) :
    hasSubstrChars p l = true := by
  cases l with
  | nil => simpa [hasSubstrChars] using h
  | cons c rest => simp [hasSubstrChars, h]

theorem picture_summary_substr {slide : Slide} (h : (shapeCounts slide.shapes).picture ≠ 0) :
    hasSubstr (shape_summary slide) "picture:" = true := by
  unfold shape_summary
  have hparts : ∃ rest, countParts (shapeCounts slide.shapes) =
      ("picture:" ++ toString (shapeCounts slide.shapes).picture) :: rest := by
    unfold countParts
    rw [if_pos h]
    exact ⟨_, rfl⟩
  obtain ⟨rest, hparts⟩ := hparts
  have hne : countParts (shapeCounts slide.shapes) ≠ [] := by rw [hparts]; simp
  rw [if_neg hne, hparts]
  obtain ⟨r, hr⟩ := joinSep_cons_data ", " _ rest
  unfold hasSubstr
  rw [hr, String.data_append, List.append_assoc]
  exact hasSubstrChars_of_prefixCheck (isPrefixChars_append _ _)

theorem iter_erase (sh : Shape) : iter_shape_text (eraseAltShape sh) = iter_shape_text sh := rfl

theorem loopGo_erase (shapes : List Shape) :
    iterShapeLoopGo (shapes.map eraseAltShape) = iterShapeLoopGo shapes := by
  induction shapes with
  | nil => rfl
  | cons sh rest ih => simp [iterShapeLoopGo, iter_erase, ih]

theorem countShape_erase (c : ShapeCounts) (sh : Shape) :
    countShape c (eraseAltShape sh) = countShape c sh := rfl

theorem countsGo_erase : ∀ (shapes : List Shape) (c : ShapeCounts),
    shapeCountsGo c (shapes.map eraseAltShape) = shapeCountsGo c shapes
  | [], _ => rfl
  | sh :: rest, c => by
    simp [shapeCountsGo, countShape_erase, countsGo_erase rest]

theorem section_erase (i : Nat) (slide : Slide) :
    slideSection i (eraseAltSlide slide) = slideSection i slide := by
  have h1 : iter_shape_text_loop (eraseAltSlide slide) = iter_shape_text_loop slide :=
    loopGo_erase slide.shapes
  have h2 : shape_summary (eraseAltSlide slide) = shape_summary slide := by
    unfold shape_summary shapeCounts
    rw [show (eraseAltSlide slide).shapes = slide.shapes.map eraseAltShape from rfl,
      countsGo_erase]
  have h3 : slide_notes (eraseAltSlide slide) = slide_notes slide := rfl
  unfold slideSection
  rw [h1, h2, h3]

theorem paraYield_eq (p : Paragraph) :
    (if paraEffText p ≠ "" ∧ pyStrip (paraEffText p) ≠ ""
      then some (p.level, pyStrip (paraEffText p)) else none) =
    (if pyStrip (if String.join p.runs = "" then p.text else String.join p.runs) = ""
      then none
      else some (p.level,
        pyStrip (if String.join p.runs = "" then p.text else String.join p.runs))) := by
  by_cases hj : String.join p.runs = ""
  · by_cases ht : p.text = ""
    · simp [paraEffText, pyOr, hj, ht, pyStrip_empty]
    · by_cases hs : pyStrip p.text = "" <;> simp [paraEffText, pyOr, hj, ht, hs]
  · by_cases hs : pyStrip (String.join p.runs) = "" <;> simp [paraEffText, pyOr, hj, hs]

theorem collectMediaGo_snd : ∀ (ms : List MediaEntry) (fs : ExportDir) (ex : List String),
    (collectMediaGo fs ex ms).2 = ex ++ ms.map (fun m => m.name)
  | [], fs, ex => by simp [collectMediaGo]
  | m :: ms, fs, ex => by
    simp [collectMediaGo, collectMediaGo_snd ms]

theorem lookup_append_some {fs : ExportDir} {n : String} {b : List Nat} (l : ExportDir)
    (h : lookupFile fs n = some b) : lookupFile (fs ++ l) n = some b := by
  induction fs with
  | nil => simp [lookupFile] at h
  | cons p rest ih =>
    obtain ⟨pn, pc⟩ := p
    by_cases he : pn = n
    · simp only [lookupFile, if_pos he] at h
      simpa [lookupFile, he] using h
    · simp only [lookupFile, if_neg he] at h
      simpa [lookupFile, he] using ih h

theorem lookup_writeIfAbsent_mono {fs : ExportDir} {n : String} {b : List Nat} (m : MediaEntry)
    (h : lookupFile fs n = some b) : lookupFile (writeIfAbsent fs m) n = some b := by
  unfold writeIfAbsent
  cases hl : lookupFile fs m.name with
  | some _ => exact h
  | none => exact lookup_append_some _ h

theorem go_preserves : ∀ (ms : List MediaEntry) (fs : ExportDir) (ex : List String)
    {n : String} {b : List Nat}, lookupFile fs n = some b →
    lookupFile (collectMediaGo fs ex ms).1 n = some b
  | [], _, _, _, _, h => h
  | m :: ms, fs, ex, _, _, h => go_preserves ms _ _ (lookup_writeIfAbsent_mono m h)

theorem lookup_append_single_self : ∀ (fs : ExportDir) (n : String) (c : List Nat),
    lookupFile fs n = none → lookupFile (fs ++ [(n, c)]) n = some c
  | [], n, c, _ => by simp [lookupFile]
  | (pn, pc) :: rest, n, c, h => by
    by_cases he : pn = n
    · simp [lookupFile, he] at h
    · simp only [lookupFile, if_neg he] at h
      simpa [lookupFile, he] using lookup_append_single_self rest n c h

theorem isSome_lookup_writeIfAbsent_self (fs : ExportDir) (m : MediaEntry) :
    (lookupFile (writeIfAbsent fs m) m.name).isSome := by
  unfold writeIfAbsent
  cases hl : lookupFile fs m.name with
  | some c => simp [hl]
  | none => simp [lookup_append_single_self fs m.name m.content hl]

theorem go_isSome_mono : ∀ (ms : List MediaEntry) (fs : ExportDir) (ex : List String)
    {n : String}, (lookupFile fs n).isSome →
    (lookupFile (collectMediaGo fs ex ms).1 n).isSome := by
  intro ms fs ex n h
  obtain ⟨b, hb⟩ := Option.isSome_iff_exists.mp h
  rw [go_preserves ms fs ex hb]
  rfl

theorem go_covers : ∀ (ms : List MediaEntry) (fs : ExportDir) (ex : List String)
    {m : MediaEntry}, m ∈ ms → (lookupFile (collectMediaGo fs ex ms).1 m.name).isSome
  | m0 :: ms, fs, ex, m, hm => by
    rcases List.mem_cons.mp hm with h | h
    · subst h
      exact go_isSome_mono ms _ _ (isSome_lookup_writeIfAbsent_self fs m)
    · exact go_covers ms _ _ h

theorem go_noop : ∀ (ms : List MediaEntry) (fs : ExportDir) (ex : List String),
    (∀ m ∈ ms, (lookupFile fs m.name).isSome) → (collectMediaGo fs ex ms).1 = fs
  | [], _, _, _ => rfl
  | m :: ms, fs, ex, h => by
    have hm := h m (List.mem_cons_self m ms)
    have hw : writeIfAbsent fs m = fs := by
      unfold writeIfAbsent
      obtain ⟨b, hb⟩ := Option.isSome_iff_exists.mp hm
      rw [hb]
    show (collectMediaGo (writeIfAbsent fs m) (ex ++ [m.name]) ms).1 = fs
    rw [hw]
    exact go_noop ms fs (ex ++ [m.name]) fun m2 h2 => h m2 (List.mem_cons_of_mem m h2)

theorem collect_idem (prs : Presentation) (pkg : Package) (fs : ExportDir) (i j : Nat) :
    collectMedia prs pkg (collectMedia prs pkg fs i).1 j = collectMedia prs pkg fs i := by
  have hcov : ∀ m ∈ pkg.media, (lookupFile (collectMediaGo fs [] pkg.media).1 m.name).isSome :=
    fun m hm => go_covers pkg.media fs [] hm
  unfold collectMedia
  refine Prod.ext ?_ ?_
  · exact go_noop _ _ _ hcov
  · rw [collectMediaGo_snd, collectMediaGo_snd]

end Pptx

namespace Pptx

/-! ## Claim theorems -/

/-- C1: the claim says pictures are resolved individually through their
slide's relationship table and written to paths named from
{document-stem, slide-number, picture-ordinal}.  The code instead copies the
whole `ppt/media` pool: the exported names are exactly the package's media
file names, for every presentation; at the concrete failing input (a deck
whose single slide holds a single picture, a package pool of two images) both
pool entries are exported under their original archive names — no per-picture
resolution, no stem/slide/ordinal naming. -/
theorem C1_media_pool_copy :
    (∀ (prs : Presentation) (pkg : Package) (fs : ExportDir) (i : Nat),
      (collectMedia prs pkg fs i).2 = pkg.media.map fun m => m.name) ∧
    collectMedia ⟨[⟨[⟨ShapeType.picture, none, none, none⟩], none⟩]⟩
        ⟨[⟨"image1.png", [1]⟩, ⟨"image2.png", [2]⟩]⟩ [] 0 =
      ([("image1.png", [1]), ("image2.png", [2])], ["image1.png", "image2.png"]) := by
  constructor
  · intro prs pkg fs i
    simpa using collectMediaGo_snd pkg.media fs []
  · decide

/-- C2 (counterexample): a slide holding a picture that lacks both alt-text
and name, together with a text shape, does not receive the advisory
recommendation sentence — the claimed alt-text trigger does not exist. -/
theorem C2_counterexample :
    (∃ sh ∈ ([⟨ShapeType.picture, none, none, none⟩,
        ⟨ShapeType.other, some ⟨[⟨0, ["Hello"], "Hello"⟩]⟩, none, none⟩] : List Shape),
        sh.shapeType = ShapeType.picture ∧ sh.altText = none ∧ sh.name = none) ∧
    advisoryLine ∉ slideSection 1
      ⟨[⟨ShapeType.picture, none, none, none⟩,
        ⟨ShapeType.other, some ⟨[⟨0, ["Hello"], "Hello"⟩]⟩, none, none⟩], none⟩ := by
  decide

/-- C2 (amended): the slide section is independent of every shape's alt-text
and name, and the advisory recommendation sentence is emitted whenever the
slide has at least one picture and neither extracted text nor notes — the
only trigger in the code. -/
theorem C2_advisory :
    ∀ (i : Nat) (slide : Slide),
      slideSection i (eraseAltSlide slide) = slideSection i slide ∧
      ((shapeCounts slide.shapes).picture ≠ 0 → iter_shape_text_loop slide = [] →
        slide_notes slide = "" → advisoryLine ∈ slideSection i slide) := by
  intro i slide
  refine ⟨section_erase i slide, fun hpic hloop hnotes => ?_⟩
  have hsub := picture_summary_substr hpic
  simp [slideSection, hloop, hnotes, hsub]

/-- C2 (witness): a slide with one picture, no text and no notes receives the
advisory sentence. -/
theorem C2_advisory_witness :
    advisoryLine ∈ slideSection 1 ⟨[⟨ShapeType.picture, none, none, none⟩], none⟩ :=
  (C2_advisory 1 ⟨[⟨ShapeType.picture, none, none, none⟩], none⟩).2 (by decide) rfl rfl

/-- C3: sanitization is total — for every input stem the result is non-empty
and contains only letters, digits, underscore, hyphen or dot; the empty
input, an all-symbol input and a whitespace run evaluate as the code
prescribes. -/
theorem C3_sanitize_total :
    (∀ stem : String, sanitize_stem stem ≠ "" ∧
      (sanitize_stem stem).data.all specAllowedChar = true) ∧
    sanitize_stem "" = "slides" ∧ sanitize_stem "!!!" = "slides" ∧
    sanitize_stem "a  b" = "a_b" := by
  refine ⟨fun stem => ?_, by decide, by decide, by decide⟩
  unfold sanitize_stem
  by_cases h : (collapseWs stem.data).filter isStemChar = []
  · rw [if_pos h]
    exact ⟨by decide, by decide⟩
  · rw [if_neg h]
    refine ⟨mk_ne_empty h, ?_⟩
    rw [List.all_eq_true]
    intro c hc
    have hst : isStemChar c = true := List.of_mem_filter (by simpa using hc)
    exact stemChar_allowed hst

/-- C3 (witness): the totality statement evaluated at a concrete stem. -/
theorem C3_sanitize_total_witness :
    sanitize_stem "a b!" ≠ "" ∧ (sanitize_stem "a b!").data.all specAllowedChar = true :=
  C3_sanitize_total.1 "a b!"

/-- C4 (counterexample): with a corrupt first input and a healthy second
input, the batch stops at the first file and the second is never converted,
although the second alone converts fine — contrary to the claimed
skip-and-continue policy. -/
theorem C4_counterexample :
    runBatch [] [⟨["bad.pptx"], "bad.pptx", "bad", none⟩,
        ⟨["good.pptx"], "good.pptx", "good", some (⟨[]⟩, ⟨[]⟩)⟩] =
      ([], [], some "package-open failure: bad.pptx") ∧
    (runBatch [] [⟨["good.pptx"], "good.pptx", "good", some (⟨[]⟩, ⟨[]⟩)⟩]).1.length = 1 ∧
    (runBatch [] [⟨["good.pptx"], "good.pptx", "good", some (⟨[]⟩, ⟨[]⟩)⟩]).2.2 = none := by
  decide

/-- C4 (amended): a package-open failure on an input file that is not under
the docs directory terminates the whole batch — no later file is processed
and the error propagates. -/
theorem C4_failure_aborts_batch :
    ∀ (fs : ExportDir) (bad : InputFile) (rest : List InputFile),
      bad.opened = none → "docs" ∉ bad.parts →
      runBatch fs (bad :: rest) = ([], fs, some (openErrMsg bad)) := by
  intro fs bad rest hop hdocs
  unfold runBatch
  rw [if_neg hdocs]
  unfold extractOneE
  rw [hop]

/-- C4 (witness): the amended statement at the concrete two-file batch. -/
theorem C4_failure_aborts_batch_witness :
    runBatch [] [⟨["bad.pptx"], "bad.pptx", "bad", none⟩,
        ⟨["good.pptx"], "good.pptx", "good", some (⟨[]⟩, ⟨[]⟩)⟩] =
      ([], [], some (openErrMsg ⟨["bad.pptx"], "bad.pptx", "bad", none⟩)) :=
  C4_failure_aborts_batch [] ⟨["bad.pptx"], "bad.pptx", "bad", none⟩
    [⟨["good.pptx"], "good.pptx", "good", some (⟨[]⟩, ⟨[]⟩)⟩] rfl (by decide)

/-- C5: a slide with no extracted text and all shape counts zero gets both
the "no text detected" placeholder line and the "no non-text shapes" summary
line; and the summary equals the no-shape sentence exactly when every
category count is zero. -/
theorem C5_empty_slide :
    (∀ (i : Nat) (slide : Slide), iter_shape_text_loop slide = [] →
        shapeCounts slide.shapes = ⟨0, 0, 0, 0, 0⟩ →
        placeholderLine ∈ slideSection i slide ∧
        summaryLabel ++ noShapeText ∈ slideSection i slide) ∧
    (∀ slide : Slide, shape_summary slide = noShapeText ↔
        (shapeCounts slide.shapes).picture = 0 ∧ (shapeCounts slide.shapes).table = 0 ∧
        (shapeCounts slide.shapes).chart = 0 ∧ (shapeCounts slide.shapes).group = 0 ∧
        (shapeCounts slide.shapes).other = 0) := by
  constructor
  · intro i slide hloop hcounts
    have hsum : shape_summary slide = noShapeText := by
      rw [shape_summary_noShape_iff, hcounts]
      decide
    constructor
    · simp [slideSection, hloop]
    · simp [slideSection, hloop, hsum]
  · intro slide
    rw [shape_summary_noShape_iff, countParts_eq_nil_iff]

/-- C5 (witness): the empty slide receives both sentences. -/
theorem C5_empty_slide_witness :
    placeholderLine ∈ slideSection 1 ⟨[], none⟩ ∧
    summaryLabel ++ noShapeText ∈ slideSection 1 ⟨[], none⟩ :=
  C5_empty_slide.1 1 ⟨[], none⟩ rfl rfl

/-- C6 (counterexample): on a paragraph that has a run (of empty text) and a
non-empty `text` attribute, the code falls back to the paragraph text and
yields a pair, while the claim (fallback only when no runs are present)
yields nothing. -/
theorem C6_counterexample :
    iter_shape_text ⟨ShapeType.other, some ⟨[⟨0, [""], "X"⟩]⟩, none, none⟩ = [(0, "X")] ∧
    iterShapeTextClaim ⟨ShapeType.other, some ⟨[⟨0, [""], "X"⟩]⟩, none, none⟩ = [] := by
  decide

/-- C6 (amended): text extraction yields one pair per paragraph that is
non-empty after trimming, the paragraph text being the concatenation of its
runs with fallback to the paragraph's own text whenever that concatenation is
empty (in particular when there are no runs). -/
theorem C6_run_fallback :
    ∀ shape : Shape, iter_shape_text shape = iterShapeTextAmended shape := by
  intro shape
  unfold iter_shape_text iterShapeTextAmended
  cases shape.textFrame with
  | none => rfl
  | some tf =>
    simp only
    have hfun :
        (fun p : Paragraph =>
          if paraEffText p ≠ "" ∧ pyStrip (paraEffText p) ≠ ""
          then some (p.level, pyStrip (paraEffText p)) else none) =
        (fun p : Paragraph =>
          if pyStrip (if String.join p.runs = "" then p.text else String.join p.runs) = ""
          then none
          else some (p.level,
            pyStrip (if String.join p.runs = "" then p.text else String.join p.runs))) :=
      funext fun p => paraYield_eq p
    exact congrArg (fun f => tf.paragraphs.filterMap f) hfun

/-- C7: bullets are indented two spaces per nesting level with the level
clamped at 4 (at most 8 spaces), and the Intro/Detail scenario renders as
`- Intro` followed by `  - Detail` with the no-non-text-shapes summary. -/
theorem C7_bullet_indent :
    (∀ (lv : Nat) (t : String), bulletLine lv t = strRepeat "  " (min lv 4) ++ "- " ++ t ∧
      (strRepeat "  " (min lv 4)).length = 2 * min lv 4 ∧
      (strRepeat "  " (min lv 4)).length ≤ 8) ∧
    slideSection 1 ⟨[⟨ShapeType.other,
        some ⟨[⟨0, ["Intro"], "Intro"⟩, ⟨1, ["Detail"], "Detail"⟩]⟩, none, none⟩], none⟩ =
      ["## Slide 1", "- Intro", "  - Detail", "",
        "**Ringkasan shape non-teks:** tidak ada shape non-teks", ""] := by
  constructor
  · intro lv t
    have h2 : "  ".length = 2 := by decide
    have hmin : min lv 4 ≤ 4 := Nat.min_le_right lv 4
    refine ⟨rfl, ?_, ?_⟩ <;>
    · rw [strRepeat_length, h2]
      omega
  · decide

/-- C8: running the extraction twice on the same input is idempotent — the
second run returns the same output file name, byte-identical Markdown, and
leaves the media export directory exactly as the first run left it (the
existence check suppresses every second write). -/
theorem C8_idempotent :
    ∀ (pptxName stem0 : String) (prs : Presentation) (pkg : Package) (fs : ExportDir),
      extract_one pptxName stem0 prs pkg (extract_one pptxName stem0 prs pkg fs).2.2 =
        extract_one pptxName stem0 prs pkg fs := by
  intro n s prs pkg fs
  simp only [extract_one]
  rw [collect_idem prs pkg fs 0 0]

/-- C9: an exported media file already on disk is never modified by
`collect_media` — its original bytes survive even when the package holds an
entry of the same name with different content. -/
theorem C9_no_overwrite :
    ∀ (prs : Presentation) (pkg : Package) (fs : ExportDir) (i : Nat)
      (n : String) (b : List Nat), lookupFile fs n = some b →
      lookupFile (collectMedia prs pkg fs i).1 n = some b := by
  intro prs pkg fs i n b h
  exact go_preserves pkg.media fs [] h

/-- C9 (witness): a pre-existing `a.png` with bytes `[9]` keeps its bytes when
the package carries an `a.png` with bytes `[7]`. -/
theorem C9_no_overwrite_witness :
    lookupFile (collectMedia ⟨[]⟩ ⟨[⟨"a.png", [7]⟩]⟩ [("a.png", [9])] 0).1 "a.png" =
      some [9] :=
  C9_no_overwrite ⟨[]⟩ ⟨[⟨"a.png", [7]⟩]⟩ [("a.png", [9])] 0 "a.png" [9] (by decide)

/-- C10: the media export depends only on the package and the export
directory — the presentation object and the slide index have no influence on
the result. -/
theorem C10_media_independent :
    ∀ (prs1 prs2 : Presentation) (i1 i2 : Nat) (pkg : Package) (fs : ExportDir),
      collectMedia prs1 pkg fs i1 = collectMedia prs2 pkg fs i2 :=
  fun _ _ _ _ _ _ => rfl

end Pptx
